import Mathlib

/-!
Verification development for the gosvg SVG generation library (svg.go).

The Go source builds an in-memory tree of SVG nodes and serializes it to
text.  This file gives a shallow embedding of that code:

* Go `float64` attribute values are modelled as `Int`.  The source formats
  every numeric value with Go's `%g` verb; for integer-valued floats of
  magnitude below 10^21 (`strconv` uses fixed notation for decimal exponents
  below 21 in shortest mode) `%g` prints the plain decimal digits, which is
  exactly `toString` on `Int`.  Every claim settled here is about token
  joining, ordering, filtering and error flow, none of which depends on the
  float-to-text conversion itself, and every concrete input used below is a
  small integer.
* Go's `map[string]string` (field `valueMap` of `Style`) is modelled as
  `Option (List (String × String))`: `none` is the nil map, `some l` an
  allocated map whose iteration order (which Go leaves unspecified and
  randomizes) is the order of `l`.  Two Lean values with permuted lists
  represent the same Go map; `styleEquiv` below captures that relation.
* `io.Writer` is modelled as a step-indexed behaviour `Nat → WRes`: each
  call to `Write` either appends its chunk or returns an error, as chosen
  by the behaviour at the index of that call.
-/

namespace Gosvg

/-- Format of a numeric attribute value: Go's `%g` on an integer-valued
float64 prints the plain decimal digits (see the header note). -/
def gfmt (v : Int) : String := toString v

/-- Mirror of `floatAttr` (svg.go): `fmt.Sprintf("%s=\"%g\"", name, val)`. -/
def floatAttr (name : String) (val : Int) : String :=
  name ++ "=\"" ++ gfmt val ++ "\""

/-- Mirror of `boolAttr` (svg.go). -/
def boolAttr (name : String) (val : Bool) : String :=
  name ++ "=\"" ++ (if val then "true" else "false") ++ "\""

/-- Mirror of `stringAttr` (svg.go). -/
def stringAttr (name : String) (val : String) : String :=
  name ++ "=\"" ++ val ++ "\""

/-- Mirror of `Style` (svg.go): a struct embedding `valueMap`, a possibly
nil `map[string]string`.  `none` models the nil map; the list order of
`some l` models the map's iteration order. -/
structure Style where
  valueMap : Option (List (String × String))
deriving DecidableEq

/-- Mirror of `Style.attrString` (svg.go): returns `""` when the map is nil,
otherwise renders each entry as `key:value` (in iteration order), joins them
with `";"` and wraps the result in `style="..."`.  Note that a non-nil map
with no entries yields `style=""`, not the empty string. -/
def Style.attrString (s : Style) : String :=
  match s.valueMap with
  | none => ""
  | some entries =>
    "style=\"" ++ String.intercalate ";" (entries.map fun kv => kv.1 ++ ":" ++ kv.2) ++ "\""

/-- Mirror of `valueMap.Get` (svg.go), lifted to `Style`: if the map is nil
it is first allocated (a side effect visible to later renders), then the
value for the key (the zero value `""` when absent) is returned.  The result
is the returned value together with the style after the call. -/
def Style.Get (s : Style) (k : String) : String × Style :=
  match s.valueMap with
  | none => ("", ⟨some []⟩)
  | some entries =>
    (((entries.find? fun kv => kv.1 == k).map Prod.snd).getD "", s)

/-- Mirror of `valueMap.Set` (svg.go), lifted to `Style`; entries keep
insertion order in the model (Go map iteration order is unspecified, see the
header note). -/
def Style.Set (s : Style) (k v : String) : Style :=
  match s.valueMap with
  | none => ⟨some [(k, v)]⟩
  | some entries =>
    if entries.any fun kv => kv.1 == k then
      ⟨some (entries.map fun kv => if kv.1 == k then (k, v) else kv)⟩
    else
      ⟨some (entries ++ [(k, v)])⟩

/-- Mirror of `Transform` (svg.go): an ordered list of already formatted
transform strings. -/
structure Transform where
  transforms : List String
deriving DecidableEq

/-- Mirror of `Transform.attrString` (svg.go): joins the transform strings
with spaces and wraps them in `transform="..."`.  An empty transform list
yields `transform=""`, which is a non-empty attribute fragment. -/
def Transform.attrString (t : Transform) : String :=
  "transform=\"" ++ String.intercalate " " t.transforms ++ "\""

/-- Mirror of `Transform.Translate` (svg.go). -/
def Transform.Translate (t : Transform) (tx ty : Int) : Transform :=
  ⟨t.transforms ++ ["translate(" ++ gfmt tx ++ "," ++ gfmt ty ++ ")"]⟩

/-- Mirror of `Transform.Scale` (svg.go). -/
def Transform.Scale (t : Transform) (sx sy : Int) : Transform :=
  ⟨t.transforms ++ ["scale(" ++ gfmt sx ++ "," ++ gfmt sy ++ ")"]⟩

/-- Mirror of `ViewBox` (svg.go). -/
structure ViewBox where
  minX : Int
  minY : Int
  width : Int
  height : Int
  isSet : Bool
deriving DecidableEq

/-- Mirror of `ViewBox.Set` (svg.go). -/
def ViewBox.Set (_v : ViewBox) (minX minY width height : Int) : ViewBox :=
  ⟨minX, minY, width, height, true⟩

/-- Mirror of `ViewBox.attrString` (svg.go).  The source formats
`"%g %g %g %g", v.minX, v.minX, v.width, v.height`: the second component is
`minX` again, not `minY`; the embedding reproduces that verbatim. -/
def ViewBox.attrString (v : ViewBox) : String :=
  if !v.isSet then ""
  else
    "viewBox=\"" ++ gfmt v.minX ++ " " ++ gfmt v.minX ++ " "
      ++ gfmt v.width ++ " " ++ gfmt v.height ++ "\""

/-- Mirror of `BaseAttrs` (svg.go). -/
structure BaseAttrs where
  Style : Style
  ExternalResourcesRequired : Bool
  Class : String
deriving DecidableEq

/-- Mirror of `BaseAttrs.attrStrings` (svg.go): the style fragment, the
external-resources fragment (empty unless the flag is true), and the raw
class string, in that order.  No filtering of empty strings happens here or
in any caller. -/
def BaseAttrs.attrStrings (a : BaseAttrs) : List String :=
  [a.Style.attrString,
   if a.ExternalResourcesRequired then boolAttr "externalResourcesRequired" a.ExternalResourcesRequired else "",
   a.Class]

/-- Mirror of `ShapeAttrs` (svg.go): `BaseAttrs` plus a `Transform`. -/
structure ShapeAttrs where
  base : BaseAttrs
  Transform : Transform
deriving DecidableEq

/-- Mirror of `ShapeAttrs.attrStrings` (svg.go): the base fragments followed
by the transform fragment. -/
def ShapeAttrs.attrStrings (a : ShapeAttrs) : List String :=
  a.base.attrStrings ++ [a.Transform.attrString]

/-- The zero value of `BaseAttrs` in Go: nil style map, false flag, empty
class. -/
def zeroBase : BaseAttrs := ⟨⟨none⟩, false, ""⟩

/-- The zero value of `ShapeAttrs` in Go: zero base attributes and a nil
transform slice. -/
def zeroShape : ShapeAttrs := ⟨zeroBase, ⟨[]⟩⟩

/-- Mirror of `Point` (svg.go). -/
structure Point where
  x : Int
  y : Int
deriving DecidableEq

/-- Mirror of `Point.coordString` (svg.go). -/
def Point.coordString (p : Point) : String := gfmt p.x ++ "," ++ gfmt p.y

/-- Mirror of `CCurve` (svg.go). -/
structure CCurve where
  x1 : Int
  y1 : Int
  x2 : Int
  y2 : Int
  x : Int
  y : Int
deriving DecidableEq

/-- Mirror of `SCurve` (svg.go). -/
structure SCurve where
  x2 : Int
  y2 : Int
  x : Int
  y : Int
deriving DecidableEq

/-- Mirror of `QCurve` (svg.go). -/
structure QCurve where
  x1 : Int
  y1 : Int
  x : Int
  y : Int
deriving DecidableEq

/-- Tagged variant over the `cmdBody` implementations of svg.go
(`mCmd`, `zCmd`, `elCmd`, `hCmd`, `vCmd`, `cCmd`, `sCmd`, `qCmd`, `tCmd`). -/
inductive CmdBody where
  | m (pts : List Point)
  | z
  | el (pts : List Point) (isAbs : Bool)
  | h (xs : List Int) (isAbs : Bool)
  | v (ys : List Int) (isAbs : Bool)
  | c (cvs : List CCurve) (isAbs : Bool)
  | s (cvs : List SCurve) (isAbs : Bool)
  | q (cvs : List QCurve) (isAbs : Bool)
  | t (pts : List Point) (isAbs : Bool)
deriving DecidableEq

/-- Mirror of the `strings()` methods of the command bodies (svg.go): each
flattens its argument groups into `%g`-formatted tokens in parameter
order. -/
def CmdBody.strings : CmdBody → List String
  | .m pts => pts.flatMap fun p => [gfmt p.x, gfmt p.y]
  | .z => []
  | .el pts _ => pts.flatMap fun p => [gfmt p.x, gfmt p.y]
  | .h xs _ => xs.map gfmt
  | .v ys _ => ys.map gfmt
  | .c cvs _ => cvs.flatMap fun cv =>
      [gfmt cv.x1, gfmt cv.y1, gfmt cv.x2, gfmt cv.y2, gfmt cv.x, gfmt cv.y]
  | .s cvs _ => cvs.flatMap fun cv => [gfmt cv.x2, gfmt cv.y2, gfmt cv.x, gfmt cv.y]
  | .q cvs _ => cvs.flatMap fun cv => [gfmt cv.x1, gfmt cv.y1, gfmt cv.x, gfmt cv.y]
  | .t pts _ => pts.flatMap fun p => [gfmt p.x, gfmt p.y]

/-- Mirror of `cmd` (svg.go): a one-letter command code and its body. -/
structure Cmd where
  name : String
  body : CmdBody
deriving DecidableEq

/-- Mirror of `Path.addCmd` (svg.go) on the command list `d`. -/
def Path.addCmd (d : List Cmd) (name : String) (body : CmdBody) : List Cmd :=
  d ++ [⟨name, body⟩]

/-- Mirror of `Path.Ma` (svg.go). -/
def Path.Ma (d : List Cmd) (pts : List Point) : List Cmd := Path.addCmd d "M" (.m pts)

/-- Mirror of `Path.Mr` (svg.go). -/
def Path.Mr (d : List Cmd) (pts : List Point) : List Cmd := Path.addCmd d "m" (.m pts)

/-- Mirror of `Path.Z` (svg.go). -/
def Path.Z (d : List Cmd) : List Cmd := Path.addCmd d "z" .z

/-- Mirror of `Path.La` (svg.go). -/
def Path.La (d : List Cmd) (pts : List Point) : List Cmd := Path.addCmd d "L" (.el pts true)

/-- Mirror of `Path.Lr` (svg.go). -/
def Path.Lr (d : List Cmd) (pts : List Point) : List Cmd := Path.addCmd d "l" (.el pts false)

/-- Mirror of `Path.Ha` (svg.go). -/
def Path.Ha (d : List Cmd) (xs : List Int) : List Cmd := Path.addCmd d "H" (.h xs true)

/-- Mirror of `Path.Hr` (svg.go). -/
def Path.Hr (d : List Cmd) (xs : List Int) : List Cmd := Path.addCmd d "h" (.h xs false)

/-- Mirror of `Path.Va` (svg.go). -/
def Path.Va (d : List Cmd) (ys : List Int) : List Cmd := Path.addCmd d "V" (.v ys true)

/-- Mirror of `Path.Vr` (svg.go). -/
def Path.Vr (d : List Cmd) (ys : List Int) : List Cmd := Path.addCmd d "v" (.v ys false)

/-- Mirror of `Path.Ca` (svg.go). -/
def Path.Ca (d : List Cmd) (cvs : List CCurve) : List Cmd := Path.addCmd d "C" (.c cvs true)

/-- Mirror of `Path.Cr` (svg.go). -/
def Path.Cr (d : List Cmd) (cvs : List CCurve) : List Cmd := Path.addCmd d "c" (.c cvs false)

/-- Mirror of `Path.Sa` (svg.go). -/
def Path.Sa (d : List Cmd) (cvs : List SCurve) : List Cmd := Path.addCmd d "S" (.s cvs true)

/-- Mirror of `Path.Sr` (svg.go). -/
def Path.Sr (d : List Cmd) (cvs : List SCurve) : List Cmd := Path.addCmd d "s" (.s cvs false)

/-- Mirror of `Path.Qa` (svg.go). -/
def Path.Qa (d : List Cmd) (cvs : List QCurve) : List Cmd := Path.addCmd d "Q" (.q cvs true)

/-- Mirror of `Path.Qr` (svg.go). -/
def Path.Qr (d : List Cmd) (cvs : List QCurve) : List Cmd := Path.addCmd d "q" (.q cvs false)

/-- Mirror of `Path.Ta` (svg.go). -/
def Path.Ta (d : List Cmd) (pts : List Point) : List Cmd := Path.addCmd d "T" (.t pts true)

/-- Mirror of `Path.Tr` (svg.go). -/
def Path.Tr (d : List Cmd) (pts : List Point) : List Cmd := Path.addCmd d "t" (.t pts false)

/-- Mirror of the inner token loop of `Path.pathStr` (svg.go): for each body
token, the running count is increased by the token's byte length (all tokens
here are ASCII, so byte length equals `String.length`); when the count
exceeds 255 a newline separator is emitted and the count resets to zero,
otherwise a space separator is emitted.  Returns the emitted
separator/token strings and the final running count. -/
def emitTokens : List String → Nat → List String × Nat
  | [], acc => ([], acc)
  | s :: rest, acc =>
    let acc1 := acc + s.length
    if acc1 > 255 then
      let out := emitTokens rest 0
      ("\n" :: s :: out.1, out.2)
    else
      let out := emitTokens rest acc1
      (" " :: s :: out.1, out.2)

/-- Mirror of the outer command loop of `Path.pathStr` (svg.go): the command
name always counts one character (`accumLen++` in the source); the body
tokens follow via `emitTokens`. -/
def emitCmds : List Cmd → Nat → List String
  | [], _ => []
  | c :: cs, acc =>
    let acc1 := acc + 1
    let sep := if acc1 > 255 then "\n" else " "
    let acc2 := if acc1 > 255 then 0 else acc1
    let body := emitTokens c.body.strings acc2
    sep :: c.name :: (body.1 ++ emitCmds cs body.2)

/-- Concatenation of a list of strings:
`strings.Join(outs, "")` in Go. -/
def strConcat : List String → String
  | [] => ""
  | s :: ss => s ++ strConcat ss

/-- Mirror of `Path.pathStr` (svg.go): build the separator/token list, drop
the leading separator (`outs = outs[1:]` when non-empty; dropping from the
empty list is a no-op, matching the `len(outs) > 0` guard) and concatenate. -/
def pathStr (d : List Cmd) : String :=
  strConcat ((emitCmds d 0).drop 1)

/-- Token sequence of a command list: each command contributes its one-letter
name followed by its flattened body tokens. -/
def flattenTokens : List Cmd → List String
  | [] => []
  | c :: cs => c.name :: (c.body.strings ++ flattenTokens cs)

/-- Modelled from the claim's words (C1): separators for every token after
the first; before a token that would push the running count over 255, a
newline is emitted and the count resets to the length of that token. -/
def wrapRestSpec : List String → Nat → String
  | [], _ => ""
  | t :: ts, acc =>
    if acc + t.length > 255 then "\n" ++ t ++ wrapRestSpec ts t.length
    else " " ++ t ++ wrapRestSpec ts (acc + t.length)

/-- Modelled from the claim's words (C1): the whole serialization, with the
first token of the output preceded by no separator. -/
def pathStrSpec (d : List Cmd) : String :=
  match flattenTokens d with
  | [] => ""
  | t :: ts => t ++ wrapRestSpec ts t.length

/-- The amended wrap-join (C1): identical to `wrapRestSpec` except that the
running count resets to zero after a wrap, so the token emitted after the
newline is not counted toward the new segment. -/
def wrapRestZero : List String → Nat → String
  | [], _ => ""
  | t :: ts, acc =>
    if acc + t.length > 255 then "\n" ++ t ++ wrapRestZero ts 0
    else " " ++ t ++ wrapRestZero ts (acc + t.length)

/-- The amended serialization (C1): first token bare, later tokens joined by
`wrapRestZero`. -/
def pathStrZero (d : List Cmd) : String :=
  match flattenTokens d with
  | [] => ""
  | t :: ts => t ++ wrapRestZero ts t.length

/-- Tagged variant over the leaf shape structs of svg.go (`Circle`,
`Ellipse`, `Rect`, `Polygon`, `Polyline`, `Line`, `Path`), carrying each
kind's own fields; the embedded `ShapeAttrs` is factored out into the node
(every Go leaf struct embeds exactly one `ShapeAttrs`). -/
inductive Leaf where
  | circle (cx cy r : Int)
  | ellipse (cx cy rx ry : Int)
  | rect (width height x y : Int)
  | polygon (points : List Point)
  | polyline (points : List Point)
  | line (x1 x2 y1 y2 : Int)
  | path (d : List Cmd) (pathLength : Int)
deriving DecidableEq

/-- Element name of a leaf kind, as hard-coded in each `render` method of
svg.go. -/
def Leaf.tag : Leaf → String
  | .circle .. => "circle"
  | .ellipse .. => "ellipse"
  | .rect .. => "rect"
  | .polygon _ => "polygon"
  | .polyline _ => "polyline"
  | .line .. => "line"
  | .path .. => "path"

/-- Mirror of the kind-specific tail of each leaf's `attrStrings` (svg.go):
the fragments appended after the shared `ShapeAttrs` fragments, in source
order (`Rect` appends width, height, x, y; `Line` appends x1, y1, x2, y2;
`Polygon` and `Polyline` append a single `points` attribute; `Path` appends
the `d` attribute built by `pathStr`; `PathLength` is never rendered). -/
def Leaf.ownAttrStrings : Leaf → List String
  | .circle cx cy r => [floatAttr "cx" cx, floatAttr "cy" cy, floatAttr "r" r]
  | .ellipse cx cy rx ry =>
      [floatAttr "cx" cx, floatAttr "cy" cy, floatAttr "rx" rx, floatAttr "ry" ry]
  | .rect w h x y =>
      [floatAttr "width" w, floatAttr "height" h, floatAttr "x" x, floatAttr "y" y]
  | .polygon pts =>
      [stringAttr "points" (String.intercalate " " (pts.map Point.coordString))]
  | .polyline pts =>
      [stringAttr "points" (String.intercalate " " (pts.map Point.coordString))]
  | .line x1 x2 y1 y2 =>
      [floatAttr "x1" x1, floatAttr "y1" y1, floatAttr "x2" x2, floatAttr "y2" y2]
  | .path d _ => [stringAttr "d" (pathStr d)]

/-- The document tree: a tagged variant over the node structs of svg.go.
`svg` mirrors the `SVG` struct (base attributes, view box, width, height,
x, y, and the embedded container's contents); `group` mirrors `Group`
(shape attributes plus contents); `leaf` mirrors the shape structs. -/
inductive Node where
  | svg (attrs : BaseAttrs) (viewBox : ViewBox) (width height x y : Int)
      (children : List Node)
  | group (attrs : ShapeAttrs) (children : List Node)
  | leaf (attrs : ShapeAttrs) (shape : Leaf)

/-- Mirror of `SVG.attrStrings` (svg.go): base fragments, view-box fragment,
width, height, x, y, and the fixed xmlns declaration, in that order. -/
def svgAttrStrings (a : BaseAttrs) (vb : ViewBox) (width height x y : Int) : List String :=
  a.attrStrings ++
    [vb.attrString, floatAttr "width" width, floatAttr "height" height,
     floatAttr "x" x, floatAttr "y" y,
     stringAttr "xmlns" "http://www.w3.org/2000/svg"]

/-- Mirror of the opening tag written by `container.render` (svg.go):
`fmt.Sprintf("<%s %s>", c.name, strings.Join(attrs, " "))`.  The join does
not filter empty fragments. -/
def containerOpening (name : String) (attrs : List String) : String :=
  "<" ++ name ++ " " ++ String.intercalate " " attrs ++ ">"

/-- Mirror of the closing tag written by `container.render` (svg.go). -/
def containerClosing (name : String) : String := "</" ++ name ++ ">"

/-- Mirror of a leaf's `render` (svg.go): one string
`fmt.Sprintf("<%s %s/>", tag, strings.Join(attrStrings, " "))`, where the
attribute fragments are the shared `ShapeAttrs` fragments followed by the
kind-specific ones.  The join does not filter empty fragments. -/
def leafRenderStr (a : ShapeAttrs) (l : Leaf) : String :=
  "<" ++ l.tag ++ " "
    ++ String.intercalate " " (a.attrStrings ++ l.ownAttrStrings) ++ "/>"

mutual
/-- Mirror of the render methods of svg.go as the full text they write:
containers write their opening tag, their children in list order, and their
closing tag; leaves write their single self-closing tag. -/
def renderNode : Node → String
  | .svg a vb w h x y ch =>
      containerOpening "svg" (svgAttrStrings a vb w h x y)
        ++ renderList ch ++ containerClosing "svg"
  | .group a ch =>
      containerOpening "g" a.attrStrings ++ renderList ch ++ containerClosing "g"
  | .leaf a l => leafRenderStr a l

/-- Renders of a child list, concatenated in order (the loop of
`container.render` in svg.go). -/
def renderList : List Node → String
  | [] => ""
  | n :: ns => renderNode n ++ renderList ns
end

/-- Mirror of the `SVG` struct (svg.go): document root fields plus the
embedded container's contents. -/
structure SVG where
  base : BaseAttrs
  viewBox : ViewBox
  Width : Int
  Height : Int
  X : Int
  Y : Int
  contents : List Node

/-- Mirror of `NewSVG` (svg.go): zero base attributes, unset view box, zero
offsets, no children. -/
def NewSVG (width height : Int) : SVG :=
  ⟨zeroBase, ⟨0, 0, 0, 0, false⟩, width, height, 0, 0, []⟩

/-- View of the document root as a tree node. -/
def SVG.toNode (s : SVG) : Node :=
  .svg s.base s.viewBox s.Width s.Height s.X s.Y s.contents

/-- Mirror of `SVG.RenderFragment` (svg.go): only the container render, no
prolog. -/
def SVG.RenderFragment (s : SVG) : String := renderNode s.toNode

/-- Mirror of `SVG.Render` (svg.go): the fixed XML prolog literal followed
directly by the container render. -/
def SVG.Render (s : SVG) : String :=
  "<?xml version=\"1.0\"?>" ++ renderNode s.toNode

/-- The child-construction calls of svg.go.  Every constructor in the
source is a method on the shared `container` type, except `Group`, whose
receiver is `*SVG` (document root only); `Call.group` is therefore only
available on the root, which claim C9 records as a bug against the
constructor's own doc comment. -/
inductive Call where
  | svg (x y w h : Int)
  | circle (cx cy r : Int)
  | ellipse (cx cy rx ry : Int)
  | rect (x y w h : Int)
  | polygon (pts : List Point)
  | polyline (pts : List Point)
  | line (x1 y1 x2 y2 : Int)
  | path
  | group

/-- The freshly created child node each construction call appends (svg.go):
all attribute bundles start at their Go zero values; only the fields passed
to the constructor are set. -/
def newChild : Call → Node
  | .svg x y w h => .svg zeroBase ⟨0, 0, 0, 0, false⟩ w h x y []
  | .circle cx cy r => .leaf zeroShape (.circle cx cy r)
  | .ellipse cx cy rx ry => .leaf zeroShape (.ellipse cx cy rx ry)
  | .rect x y w h => .leaf zeroShape (.rect w h x y)
  | .polygon pts => .leaf zeroShape (.polygon pts)
  | .polyline pts => .leaf zeroShape (.polyline pts)
  | .line x1 y1 x2 y2 => .leaf zeroShape (.line x1 x2 y1 y2)
  | .path => .leaf zeroShape (.path [] 0)
  | .group => .group zeroShape []

/-- Element name of the node a call constructs. -/
def Call.tag : Call → String
  | .svg .. => "svg"
  | .circle .. => "circle"
  | .ellipse .. => "ellipse"
  | .rect .. => "rect"
  | .polygon _ => "polygon"
  | .polyline _ => "polyline"
  | .line .. => "line"
  | .path => "path"
  | .group => "g"

/-- A sequence of construction calls applied to a container's contents:
each call appends its fresh child (`c.contents = append(c.contents, child)`
in every constructor of svg.go). -/
def appendCalls (contents : List Node) : List Call → List Node
  | [] => contents
  | c :: cs => appendCalls (contents ++ [newChild c]) cs

/-- Construction calls applied to the document root. -/
def SVG.applyCalls (s : SVG) (cs : List Call) : SVG :=
  { s with contents := appendCalls s.contents cs }

/-- Modelled from the claim's words (C3): a leaf render in which the empty
attribute-text fragments are filtered out before the final space-join, so
that an attribute with an empty effective value contributes no text at
all. -/
def leafRenderFiltered (a : ShapeAttrs) (l : Leaf) : String :=
  "<" ++ l.tag ++ " "
    ++ String.intercalate " "
        ((a.attrStrings ++ l.ownAttrStrings).filter fun s => !(s == "")) ++ "/>"

/-- Result of one `Write` call on the modelled sink: the sink either accepts
the chunk or reports an error string. -/
inductive WRes where
  | ok
  | fail (e : String)

/-- The modelled `io.Writer`: the behaviour decides, per call index, whether
that `Write` call succeeds or fails (and with which error). -/
structure Writer where
  beh : Nat → WRes

/-- State of the sink: the chunks successfully written so far, and how many
`Write` calls have been made. -/
structure WSt where
  chunks : List String
  calls : Nat

/-- One `Write` call: on success the chunk is appended to the sink and no
error is returned; on failure nothing is appended and the error is
returned.  Either way the call counter advances. -/
def wwrite (w : Writer) (s : String) (st : WSt) : WSt × Option String :=
  match w.beh st.calls with
  | .ok => (⟨st.chunks ++ [s], st.calls + 1⟩, none)
  | .fail e => (⟨st.chunks, st.calls + 1⟩, some e)

/-- Early-return chaining of Go: `if err != nil { return err }` after the
first step, then the second step on the state left behind. -/
def andThen (x : WSt × Option String) (f : WSt → WSt × Option String) :
    WSt × Option String :=
  match x with
  | (st, some e) => (st, some e)
  | (st, none) => f st

mutual
/-- Mirror of the render methods of svg.go against the modelled sink, with
their exact write granularity and early returns: a leaf issues one `Write`
with its whole tag; a container writes its opening tag, renders each child
in order, and writes its closing tag, returning the first error
immediately without issuing further writes (`andThen` is the source's
`if err != nil { return err }` chaining). -/
def renderNodeW (w : Writer) : Node → WSt → WSt × Option String
  | .svg a vb wd h x y ch, st =>
      andThen (wwrite w (containerOpening "svg" (svgAttrStrings a vb wd h x y)) st) fun st1 =>
        andThen (renderListW w ch st1) fun st2 =>
          wwrite w (containerClosing "svg") st2
  | .group a ch, st =>
      andThen (wwrite w (containerOpening "g" a.attrStrings) st) fun st1 =>
        andThen (renderListW w ch st1) fun st2 =>
          wwrite w (containerClosing "g") st2
  | .leaf a l, st => wwrite w (leafRenderStr a l) st

/-- The child loop of `container.render` (svg.go) against the modelled
sink: render children in order, stopping at the first error. -/
def renderListW (w : Writer) : List Node → WSt → WSt × Option String
  | [], st => (st, none)
  | n :: ns, st => andThen (renderNodeW w n st) fun st1 => renderListW w ns st1
end

/-- A render invocation on the document root against the modelled sink:
`SVG.Render` (full document: the prolog write first, aborting on its
failure) when `full` is true, `SVG.RenderFragment` otherwise. -/
def renderInvoke (full : Bool) (s : SVG) (w : Writer) (st : WSt) : WSt × Option String :=
  if full then
    andThen (wwrite w "<?xml version=\"1.0\"?>" st) fun st1 =>
      renderNodeW w s.toNode st1
  else
    renderNodeW w s.toNode st

/-- What a span of `Write` calls guarantees: on success every call made in
the span succeeded and the sink grew by appended chunks only; on failure
the returned error is the one produced by the last call made, every call
before it succeeded, no call was made after it, and the sink grew by
appended chunks only (nothing is rolled back). -/
def WriteRun (w : Writer) (st st' : WSt) (r : Option String) : Prop :=
  match r with
  | none =>
      st.calls ≤ st'.calls
        ∧ (∀ i, st.calls ≤ i → i < st'.calls → w.beh i = .ok)
        ∧ ∃ t, st'.chunks = st.chunks ++ t
  | some e =>
      ∃ j, st.calls ≤ j ∧ st'.calls = j + 1 ∧ w.beh j = .fail e
        ∧ (∀ i, st.calls ≤ i → i < j → w.beh i = .ok)
        ∧ ∃ t, st'.chunks = st.chunks ++ t

/-- Two modelled styles represent the identically configured Go style: both
are the nil map, or both are allocated maps with the same entries (the
iteration orders are permutations of each other). -/
def styleEquiv (s t : Style) : Bool :=
  match s.valueMap, t.valueMap with
  | none, none => true
  | some l, some m => decide (l.Perm m)
  | _, _ => false

/-- Identically configured base attributes: equal up to the style's
iteration order. -/
def baseEquiv (a b : BaseAttrs) : Bool :=
  styleEquiv a.Style b.Style
    && decide (a.ExternalResourcesRequired = b.ExternalResourcesRequired)
    && decide (a.Class = b.Class)

/-- Identically configured shape attributes: equal up to the style's
iteration order (the transform list is ordered in Go and must be equal). -/
def shapeEquiv (a b : ShapeAttrs) : Bool :=
  baseEquiv a.base b.base && decide (a.Transform = b.Transform)

mutual
/-- Identically configured nodes: same kind, equal fields, children
pointwise identically configured, styles equal up to iteration order. -/
def nodeEquiv : Node → Node → Bool
  | .svg a vb w h x y ch, .svg a' vb' w' h' x' y' ch' =>
      baseEquiv a a' && decide (vb = vb') && decide (w = w') && decide (h = h')
        && decide (x = x') && decide (y = y') && listEquiv ch ch'
  | .group a ch, .group a' ch' => shapeEquiv a a' && listEquiv ch ch'
  | .leaf a l, .leaf a' l' => shapeEquiv a a' && decide (l = l')
  | .svg .., .group .. => false
  | .svg .., .leaf .. => false
  | .group .., .svg .. => false
  | .group .., .leaf .. => false
  | .leaf .., .svg .. => false
  | .leaf .., .group .. => false

/-- Pointwise identical configuration of child lists. -/
def listEquiv : List Node → List Node → Bool
  | [], [] => true
  | n :: ns, m :: ms => nodeEquiv n m && listEquiv ns ms
  | [], _ :: _ => false
  | _ :: _, [] => false
end

/-- A style holds at most one property. -/
def styleSmall (s : Style) : Bool :=
  match s.valueMap with
  | none => true
  | some l => decide (l.length ≤ 1)

mutual
/-- Every style in the node holds at most one property. -/
def nodeStylesSmall : Node → Bool
  | .svg a _ _ _ _ _ ch => styleSmall a.Style && listStylesSmall ch
  | .group a ch => styleSmall a.base.Style && listStylesSmall ch
  | .leaf a _ => styleSmall a.base.Style

/-- Every style in the list of nodes holds at most one property. -/
def listStylesSmall : List Node → Bool
  | [] => true
  | n :: ns => nodeStylesSmall n && listStylesSmall ns
end

/-! ## Helper lemmas -/

theorem strConcat_append (a b : List String) :
    strConcat (a ++ b) = strConcat a ++ strConcat b := by
  induction a with
  | nil => simp [strConcat]
  | cons s ss ih => simp [strConcat, ih, String.append_assoc]

theorem wrapRestZero_append (toks : List String) (acc : Nat) (more : List String) :
    wrapRestZero (toks ++ more) acc =
      strConcat (emitTokens toks acc).1 ++ wrapRestZero more (emitTokens toks acc).2 := by
  induction toks generalizing acc with
  | nil => simp [emitTokens, strConcat]
  | cons t ts ih =>
    simp only [List.cons_append, wrapRestZero, emitTokens]
    by_cases h : acc + t.length > 255
    · simp only [if_pos h, List.append_eq, ih 0, strConcat, String.append_assoc]
    · simp only [if_neg h, List.append_eq, ih (acc + t.length), strConcat, String.append_assoc]

theorem emitCmds_concat (cs : List Cmd) (acc : Nat)
    (h : ∀ c ∈ cs, c.name.length = 1) :
    strConcat (emitCmds cs acc) = wrapRestZero (flattenTokens cs) acc := by
  induction cs generalizing acc with
  | nil => simp [emitCmds, flattenTokens, wrapRestZero, strConcat]
  | cons c cs ih =>
    have hname : c.name.length = 1 := h c (List.mem_cons_self c cs)
    have hrest : ∀ x ∈ cs, x.name.length = 1 := fun x hx => h x (List.mem_cons_of_mem c hx)
    simp only [emitCmds, flattenTokens, wrapRestZero, hname]
    by_cases hb : acc + 1 > 255
    · simp only [if_pos hb, strConcat, strConcat_append, wrapRestZero_append,
        String.append_assoc]
      rw [ih _ hrest]
    · simp only [if_neg hb, strConcat, strConcat_append, wrapRestZero_append,
        String.append_assoc]
      rw [ih _ hrest]

/-! ## C1: path serialization and the line-wrap policy -/

/-- C1, amended: serializing the command list joins tokens with single
spaces, except that before emitting a token whose addition would push the
running character count over 255 a newline is emitted instead of a space
and the running count resets to zero (the token after the newline is not
counted toward the new segment); the first token of the whole output is
never preceded by a separator.  Stated for command names of length one,
which is every name the `Path` API of svg.go creates (the source counts
each name as one character). -/
theorem pathStr_wrap_amended (d : List Cmd) (h : ∀ c ∈ d, c.name.length = 1) :
    pathStr d = pathStrZero d := by
  cases d with
  | nil => rfl
  | cons c cs =>
    have hname : c.name.length = 1 := h c (List.mem_cons_self c cs)
    have hrest : ∀ x ∈ cs, x.name.length = 1 := fun x hx => h x (List.mem_cons_of_mem c hx)
    have h255 : ¬((0 : Nat) + 1 > 255) := by norm_num
    simp only [pathStr, emitCmds, if_neg h255, List.drop_succ_cons, List.drop_zero,
      strConcat, strConcat_append, pathStrZero, flattenTokens, hname, Nat.zero_add]
    rw [emitCmds_concat cs _ hrest, ← wrapRestZero_append]

set_option maxRecDepth 8000 in
/-- C1, counterexample to the claim as stated: on the path built by
`Path().Ha(1000, ..., 1000)` (127 arguments), the code's output and the
output of the claimed algorithm (running count reset to the wrapped token's
length) differ: the claimed algorithm wraps a second time before the 127th
numeric token, the code does not. -/
theorem pathStr_wrap_reset_counterexample :
    pathStr [⟨"H", .h (List.replicate 127 1000) true⟩]
      ≠ pathStrSpec [⟨"H", .h (List.replicate 127 1000) true⟩] := by
  decide

/-- Witness for `pathStr_wrap_amended` at a concrete two-command path. -/
theorem pathStr_wrap_amended_witness :
    (∀ c ∈ [Cmd.mk "M" (.m [⟨0, 0⟩]), Cmd.mk "L" (.el [⟨10, 0⟩] true)], c.name.length = 1) ∧
      pathStr [Cmd.mk "M" (.m [⟨0, 0⟩]), Cmd.mk "L" (.el [⟨10, 0⟩] true)]
        = pathStrZero [Cmd.mk "M" (.m [⟨0, 0⟩]), Cmd.mk "L" (.el [⟨10, 0⟩] true)] :=
  ⟨by decide, pathStr_wrap_amended _ (by decide)⟩

/-! ## C2: the view-box fragment duplicates minX -/

/-- C2: evaluating `ViewBox.attrString` after `Set(1, 2, 3, 4)` shows the
code emitting `viewBox="1 1 3 4"` — the second component duplicates minX
instead of being minY = 2 as the claim (and the attribute's meaning)
requires; the source passes `v.minX` twice to the format call. -/
theorem viewBox_attrString_duplicates_minX (v : ViewBox) :
    (v.Set 1 2 3 4).attrString = "viewBox=\"1 1 3 4\""
      ∧ (v.Set 1 2 3 4).attrString ≠ "viewBox=\"1 2 3 4\"" := by
  refine ⟨rfl, ?_⟩
  have h : (ViewBox.mk 1 2 3 4 true).attrString ≠ "viewBox=\"1 2 3 4\"" := by decide
  exact h

/-! ## C6: full-document versus fragment render -/

/-- C6: rendering a tree in full-document mode yields exactly the
fragment-mode output with the literal prolog prepended and nothing else
different (`SVG.Render` writes the prolog and then performs the same
container render as `SVG.RenderFragment`). -/
theorem render_eq_prolog_append_fragment (s : SVG) :
    s.Render = "<?xml version=\"1.0\"?>" ++ s.RenderFragment := rfl

/-! ## C8: when a style serializes -/

/-- C8, counterexample to the claim as stated: a `Style` holding zero
properties whose underlying map was initialized (`some []`, e.g. produced by
a `Get` on a nil map) contributes the fragment `style=""`, not nothing. -/
theorem style_empty_map_fragment_counterexample :
    (Style.mk (some [])).attrString = "style=\"\""
      ∧ (Style.mk (some [])).attrString ≠ "" := ⟨rfl, by decide⟩

/-- C8, amended: a `Style` serializes to no attribute text exactly when its
underlying map is nil (never initialized); an initialized map serializes to
a `style="..."` fragment even when it holds zero properties. -/
theorem style_attrString_empty_iff_nil_map (s : Style) :
    s.attrString = "" ↔ s.valueMap = none := by
  cases hv : s.valueMap with
  | none => simp [Style.attrString, hv]
  | some entries =>
    simp only [Style.attrString, hv]
    constructor
    · intro h
      have hl := congrArg String.length h
      rw [String.length_append, String.length_append] at hl
      have h7 : ("style=\"" : String).length = 7 := rfl
      have h1 : ("\"" : String).length = 1 := rfl
      have h0 : ("" : String).length = 0 := rfl
      omega
    · intro h
      cases h

/-! ## C10: a read on an uninitialized style changes later renders -/

/-- C10: on a `Style` whose map was never initialized, `Get` allocates the
empty map as a side effect: the returned value is `""`, the style after the
call holds the allocated empty map, its attribute fragment changes from
`""` to `style=""`, and the rendered output of a node owning the style
changes accordingly. -/
theorem style_get_allocates_and_changes_render (k : String) :
    (Style.mk none).Get k = ("", Style.mk (some []))
      ∧ (Style.mk none).attrString = ""
      ∧ (Style.mk (some [])).attrString = "style=\"\""
      ∧ renderNode (.leaf ⟨⟨⟨none⟩, false, ""⟩, ⟨[]⟩⟩ (.circle 0 0 0))
          ≠ renderNode (.leaf ⟨⟨⟨some []⟩, false, ""⟩, ⟨[]⟩⟩ (.circle 0 0 0)) :=
  ⟨rfl, rfl, rfl, by decide⟩

/-! ## C3: empty attribute fragments are not filtered -/

/-- C3, counterexample to the claim as stated: a circle with unset style,
false external-resources flag, empty class and empty transform renders
differently from the filtered join the claim describes — the code keeps the
empty fragments in the space-join, so each contributes a separator space
(and the empty `Transform` even yields the non-empty fragment
`transform=""`). -/
theorem render_filter_counterexample :
    renderNode (.leaf zeroShape (.circle 0 0 0))
      ≠ leafRenderFiltered zeroShape (.circle 0 0 0) := by
  decide

/-- C3, amended: empty attribute-text fragments are not filtered out; the
final join includes them, so every empty fragment contributes one separator
space (but no attribute text), and an empty `Transform` contributes the
non-empty fragment `transform=""`.  For a circle with unset style, false
flag, empty class and no transforms, the three empty fragments are visible
in the joined attribute list below. -/
theorem render_joins_unfiltered (a : ShapeAttrs) (cx cy r : Int)
    (h1 : a.base.Style.valueMap = none)
    (h2 : a.base.ExternalResourcesRequired = false)
    (h3 : a.base.Class = "")
    (h4 : a.Transform.transforms = []) :
    renderNode (.leaf a (.circle cx cy r))
      = "<circle " ++ String.intercalate " "
          ["", "", "", "transform=\"\"",
           floatAttr "cx" cx, floatAttr "cy" cy, floatAttr "r" r] ++ "/>" := by
  obtain ⟨⟨st, ext, cls⟩, ⟨tr⟩⟩ := a
  simp only at h1 h2 h3 h4
  obtain ⟨vm⟩ := st
  simp only at h1
  subst h1 h2 h3 h4
  rfl

/-- Witness for `render_joins_unfiltered` at the Go zero values, showing the
concrete output with one separator space per empty fragment. -/
theorem render_joins_unfiltered_witness :
    (zeroShape.base.Style.valueMap = none
        ∧ zeroShape.base.ExternalResourcesRequired = false
        ∧ zeroShape.base.Class = ""
        ∧ zeroShape.Transform.transforms = [])
      ∧ renderNode (.leaf zeroShape (.circle 1 2 3))
          = "<circle " ++ String.intercalate " "
              ["", "", "", "transform=\"\"",
               floatAttr "cx" 1, floatAttr "cy" 2, floatAttr "r" 3] ++ "/>" :=
  ⟨⟨rfl, rfl, rfl, rfl⟩, render_joins_unfiltered zeroShape 1 2 3 rfl rfl rfl rfl⟩

/-! ## C5: children render in construction-call order -/

theorem appendCalls_eq (l : List Node) (cs : List Call) :
    appendCalls l cs = l ++ cs.map newChild := by
  induction cs generalizing l with
  | nil => simp [appendCalls]
  | cons c cs ih => simp [appendCalls, ih]

theorem renderList_eq_concat (l : List Node) :
    renderList l = strConcat (l.map renderNode) := by
  induction l with
  | nil => rfl
  | cons n ns ih => simp [renderList, strConcat, ih]

/-- C5: applying a sequence of child-construction calls appends exactly the
freshly constructed children in call order (no sorting, deduplication or
merging), the rendered output of the container is its opening tag followed
by the children's renders concatenated in that order and its closing tag
(for the document root and for groups alike), and each constructed child's
render begins with its own opening tag. -/
theorem children_render_in_call_order (s : SVG) (cs : List Call)
    (ga : ShapeAttrs) (l : List Node) :
    (s.applyCalls cs).contents = s.contents ++ cs.map newChild
      ∧ (s.applyCalls cs).RenderFragment
          = containerOpening "svg" (svgAttrStrings s.base s.viewBox s.Width s.Height s.X s.Y)
            ++ strConcat ((s.contents ++ cs.map newChild).map renderNode)
            ++ containerClosing "svg"
      ∧ renderNode (.group ga l)
          = containerOpening "g" ga.attrStrings ++ strConcat (l.map renderNode)
            ++ containerClosing "g"
      ∧ ∀ c : Call, ∃ rest, renderNode (newChild c) = "<" ++ c.tag ++ " " ++ rest := by
  refine ⟨appendCalls_eq s.contents cs, ?_, ?_, ?_⟩
  · simp [SVG.applyCalls, SVG.RenderFragment, SVG.toNode, renderNode,
      appendCalls_eq, renderList_eq_concat]
  · simp [renderNode, renderList_eq_concat]
  · intro c
    cases c <;>
      simp only [newChild, renderNode, leafRenderStr, Call.tag, Leaf.tag,
        containerOpening, String.append_assoc] <;>
      exact ⟨_, rfl⟩

/-! ## C4: determinism of repeated renders -/

theorem styleEquiv_small_attrString (s t : Style)
    (h : styleEquiv s t = true) (hs : styleSmall s = true) :
    s.attrString = t.attrString := by
  obtain ⟨vs⟩ := s
  obtain ⟨vt⟩ := t
  cases vs with
  | none =>
    cases vt with
    | none => rfl
    | some m => simp [styleEquiv] at h
  | some l =>
    cases vt with
    | none => simp [styleEquiv] at h
    | some m =>
      simp only [styleEquiv, decide_eq_true_eq] at h
      simp only [styleSmall, decide_eq_true_eq] at hs
      have hlm : l = m := by
        cases l with
        | nil => exact List.Perm.nil_eq h
        | cons a l' =>
          cases l' with
          | nil => exact (List.perm_singleton.mp h.symm).symm
          | cons b l'' => simp at hs
      rw [hlm]

theorem baseEquiv_small_attrStrings (a b : BaseAttrs)
    (h : baseEquiv a b = true) (hs : styleSmall a.Style = true) :
    a.attrStrings = b.attrStrings := by
  simp only [baseEquiv, Bool.and_eq_true, decide_eq_true_eq] at h
  obtain ⟨⟨h1, h2⟩, h3⟩ := h
  simp [BaseAttrs.attrStrings, styleEquiv_small_attrString a.Style b.Style h1 hs, h2, h3]

theorem shapeEquiv_small_attrStrings (a b : ShapeAttrs)
    (h : shapeEquiv a b = true) (hs : styleSmall a.base.Style = true) :
    a.attrStrings = b.attrStrings := by
  simp only [shapeEquiv, Bool.and_eq_true, decide_eq_true_eq] at h
  simp [ShapeAttrs.attrStrings, baseEquiv_small_attrStrings a.base b.base h.1 hs, h.2]

mutual
theorem nodeEquiv_render : ∀ n m : Node, nodeEquiv n m = true → nodeStylesSmall n = true →
    renderNode n = renderNode m
  | .svg a vb w h x y ch, .svg a' vb' w' h' x' y' ch', hq, hs => by
    simp only [nodeEquiv, Bool.and_eq_true, decide_eq_true_eq] at hq
    obtain ⟨⟨⟨⟨⟨⟨hb, hvb⟩, hw⟩, hh⟩, hx⟩, hy⟩, hch⟩ := hq
    simp only [nodeStylesSmall, Bool.and_eq_true] at hs
    subst hvb hw hh hx hy
    rw [renderNode, renderNode, listEquiv_render ch ch' hch hs.2,
      svgAttrStrings, svgAttrStrings, baseEquiv_small_attrStrings a a' hb hs.1]
  | .group a ch, .group a' ch', hq, hs => by
    simp only [nodeEquiv, Bool.and_eq_true] at hq
    simp only [nodeStylesSmall, Bool.and_eq_true] at hs
    rw [renderNode, renderNode, listEquiv_render ch ch' hq.2 hs.2,
      shapeEquiv_small_attrStrings a a' hq.1 hs.1]
  | .leaf a l, .leaf a' l', hq, hs => by
    simp only [nodeEquiv, Bool.and_eq_true, decide_eq_true_eq] at hq
    simp only [nodeStylesSmall] at hs
    rw [renderNode, renderNode, hq.2, leafRenderStr, leafRenderStr,
      shapeEquiv_small_attrStrings a a' hq.1 hs]
  | .svg _ _ _ _ _ _ _, .group _ _, hq, _ => by simp [nodeEquiv] at hq
  | .svg _ _ _ _ _ _ _, .leaf _ _, hq, _ => by simp [nodeEquiv] at hq
  | .group _ _, .svg _ _ _ _ _ _ _, hq, _ => by simp [nodeEquiv] at hq
  | .group _ _, .leaf _ _, hq, _ => by simp [nodeEquiv] at hq
  | .leaf _ _, .svg _ _ _ _ _ _ _, hq, _ => by simp [nodeEquiv] at hq
  | .leaf _ _, .group _ _, hq, _ => by simp [nodeEquiv] at hq

theorem listEquiv_render : ∀ l m : List Node, listEquiv l m = true → listStylesSmall l = true →
    renderList l = renderList m
  | [], [], _, _ => rfl
  | n :: ns, p :: ps, hq, hs => by
    simp only [listEquiv, Bool.and_eq_true] at hq
    simp only [listStylesSmall, Bool.and_eq_true] at hs
    rw [renderList, renderList, nodeEquiv_render n p hq.1 hs.1,
      listEquiv_render ns ps hq.2 hs.2]
  | [], _ :: _, hq, _ => by simp [listEquiv] at hq
  | _ :: _, [], hq, _ => by simp [listEquiv] at hq
end

/-- C4, counterexample to the claim as stated: two identically configured
circles — the same style map holding two properties, represented with the
two iteration orders Go may produce on different renders — yield different
bytes, because `Style.attrString` emits the pairs in iteration order. -/
theorem render_determinism_counterexample :
    nodeEquiv
        (.leaf ⟨⟨⟨some [("a", "1"), ("b", "2")]⟩, false, ""⟩, ⟨[]⟩⟩ (.circle 0 0 0))
        (.leaf ⟨⟨⟨some [("b", "2"), ("a", "1")]⟩, false, ""⟩, ⟨[]⟩⟩ (.circle 0 0 0)) = true
      ∧ renderNode (.leaf ⟨⟨⟨some [("a", "1"), ("b", "2")]⟩, false, ""⟩, ⟨[]⟩⟩ (.circle 0 0 0))
          ≠ renderNode (.leaf ⟨⟨⟨some [("b", "2"), ("a", "1")]⟩, false, ""⟩, ⟨[]⟩⟩ (.circle 0 0 0)) := by
  constructor <;> decide

/-- C4, amended: repeated renders of an identically configured node are
byte-identical provided every style in the node holds at most one property.
With two or more style properties the bytes inside the `style` fragment
follow the map's iteration order, which Go does not fix, while the ordering
of the attribute fragments themselves stays deterministic. -/
theorem render_deterministic_small_styles (n m : Node)
    (h : nodeEquiv n m = true) (hs : nodeStylesSmall n = true) :
    renderNode n = renderNode m :=
  nodeEquiv_render n m h hs

/-- Witness for `render_deterministic_small_styles`: a group holding a
one-property styled circle, compared against an identically configured
copy. -/
theorem render_deterministic_small_styles_witness :
    (nodeEquiv
        (.group zeroShape [.leaf ⟨⟨⟨some [("fill", "red")]⟩, false, ""⟩, ⟨[]⟩⟩ (.circle 1 2 3)])
        (.group zeroShape [.leaf ⟨⟨⟨some [("fill", "red")]⟩, false, ""⟩, ⟨[]⟩⟩ (.circle 1 2 3)]) = true
      ∧ nodeStylesSmall
          (.group zeroShape [.leaf ⟨⟨⟨some [("fill", "red")]⟩, false, ""⟩, ⟨[]⟩⟩ (.circle 1 2 3)]) = true)
      ∧ renderNode
          (.group zeroShape [.leaf ⟨⟨⟨some [("fill", "red")]⟩, false, ""⟩, ⟨[]⟩⟩ (.circle 1 2 3)])
        = renderNode
          (.group zeroShape [.leaf ⟨⟨⟨some [("fill", "red")]⟩, false, ""⟩, ⟨[]⟩⟩ (.circle 1 2 3)]) :=
  ⟨⟨by decide, by decide⟩,
    render_deterministic_small_styles _ _ (by decide) (by decide)⟩

/-! ## C7: write failures abort the render -/

theorem wwrite_run (w : Writer) (s : String) (st : WSt) :
    WriteRun w st (wwrite w s st).1 (wwrite w s st).2 := by
  unfold wwrite
  cases hb : w.beh st.calls with
  | ok =>
    refine ⟨Nat.le_succ _, fun i h1 h2 => ?_, [s], rfl⟩
    have h2' : i < st.calls + 1 := h2
    have : i = st.calls := by omega
    rw [this, hb]
  | fail e =>
    exact ⟨st.calls, Nat.le_refl _, rfl, hb, fun i h1 h2 => absurd h2 (by omega),
      [], by simp⟩

theorem WriteRun.seq {w : Writer} {st st1 st2 : WSt} {r : Option String}
    (h1 : WriteRun w st st1 none) (h2 : WriteRun w st1 st2 r) :
    WriteRun w st st2 r := by
  obtain ⟨hc, hok, t1, ht1⟩ := h1
  cases r with
  | none =>
    obtain ⟨hc2, hok2, t2, ht2⟩ := h2
    refine ⟨Nat.le_trans hc hc2, fun i ha hb => ?_, t1 ++ t2, by simp [ht2, ht1]⟩
    by_cases hi : i < st1.calls
    · exact hok i ha hi
    · exact hok2 i (by omega) hb
  | some e =>
    obtain ⟨j, hj1, hj2, hj3, hok2, t2, ht2⟩ := h2
    refine ⟨j, Nat.le_trans hc hj1, hj2, hj3, fun i ha hb => ?_, t1 ++ t2,
      by simp [ht2, ht1]⟩
    by_cases hi : i < st1.calls
    · exact hok i ha hi
    · exact hok2 i (by omega) hb

theorem WriteRun.idle (w : Writer) (st : WSt) : WriteRun w st st none :=
  ⟨Nat.le_refl _, fun i h1 h2 => absurd h2 (by omega), [], by simp⟩

theorem WriteRun.andThenRun {w : Writer} {st : WSt} {x : WSt × Option String}
    {f : WSt → WSt × Option String}
    (hx : WriteRun w st x.1 x.2)
    (hf : ∀ st1, WriteRun w st1 (f st1).1 (f st1).2) :
    WriteRun w st (andThen x f).1 (andThen x f).2 := by
  rcases x with ⟨st1, r1⟩
  cases r1 with
  | some e => exact hx
  | none => exact hx.seq (hf st1)

mutual
theorem renderNodeW_run : ∀ (n : Node) (w : Writer) (st : WSt),
    WriteRun w st (renderNodeW w n st).1 (renderNodeW w n st).2
  | .svg a vb wd h x y ch, w, st =>
    WriteRun.andThenRun
      (wwrite_run w (containerOpening "svg" (svgAttrStrings a vb wd h x y)) st)
      fun st1 =>
        WriteRun.andThenRun (renderListW_run ch w st1) fun st2 =>
          wwrite_run w (containerClosing "svg") st2
  | .group a ch, w, st =>
    WriteRun.andThenRun (wwrite_run w (containerOpening "g" a.attrStrings) st)
      fun st1 =>
        WriteRun.andThenRun (renderListW_run ch w st1) fun st2 =>
          wwrite_run w (containerClosing "g") st2
  | .leaf a l, w, st => wwrite_run w (leafRenderStr a l) st

theorem renderListW_run : ∀ (l : List Node) (w : Writer) (st : WSt),
    WriteRun w st (renderListW w l st).1 (renderListW w l st).2
  | [], w, st => WriteRun.idle w st
  | n :: ns, w, st =>
    WriteRun.andThenRun (renderNodeW_run n w st) fun st1 => renderListW_run ns w st1
end

theorem renderInvoke_run (full : Bool) (s : SVG) (w : Writer) (st : WSt) :
    WriteRun w st (renderInvoke full s w st).1 (renderInvoke full s w st).2 := by
  cases full with
  | false => exact renderNodeW_run s.toNode w st
  | true =>
    exact WriteRun.andThenRun (wwrite_run w "<?xml version=\"1.0\"?>" st)
      fun st1 => renderNodeW_run s.toNode w st1

/-- C7: if a write to the sink fails during a render invocation (fragment
or full-document), the invocation returns exactly the failing write's error,
the failing call is the last write call made (nothing further is written),
every write call before it succeeded, and the output already written is
kept, never rolled back (the sink only grows by appended chunks). -/
theorem render_write_failure_aborts (full : Bool) (s : SVG) (w : Writer)
    (st st' : WSt) (e : String)
    (h : renderInvoke full s w st = (st', some e)) :
    (∃ j, st.calls ≤ j ∧ st'.calls = j + 1 ∧ w.beh j = .fail e
        ∧ ∀ i, st.calls ≤ i → i < j → w.beh i = .ok)
      ∧ ∃ t, st'.chunks = st.chunks ++ t := by
  have hr := renderInvoke_run full s w st
  rw [h] at hr
  obtain ⟨j, h1, h2, h3, h4, t, h5⟩ := hr
  exact ⟨⟨j, h1, h2, h3, h4⟩, t, h5⟩

/-- Witness for `render_write_failure_aborts`: a fragment render against a
sink whose first write fails with error `boom` returns that error after
exactly one call and no written output. -/
theorem render_write_failure_aborts_witness :
    renderInvoke false (NewSVG 4 3) ⟨fun _ => .fail "boom"⟩ ⟨[], 0⟩
        = (⟨[], 1⟩, some "boom")
      ∧ ((∃ j, 0 ≤ j ∧ 1 = j + 1 ∧ (Writer.mk fun _ => .fail "boom").beh j = .fail "boom"
            ∧ ∀ i, 0 ≤ i → i < j → (Writer.mk fun _ => .fail "boom").beh i = .ok)
          ∧ ∃ t, ([] : List String) = [] ++ t) :=
  ⟨rfl, render_write_failure_aborts false (NewSVG 4 3) ⟨fun _ => .fail "boom"⟩
    ⟨[], 0⟩ ⟨[], 1⟩ "boom" rfl⟩

/-! ## C9: group construction exists only on the document root -/

/-- C9 (the part that holds, supporting the code_bug record): on the
document root — the only type that carries the `Group` constructor in
svg.go, since its receiver is `*SVG` — a group-construction call appends a
freshly created zero-valued group to the parent's ordered child sequence.
No such call exists on `Group` itself, although the constructor's own doc
comment says it creates a group "within the given container" and every
sibling constructor has receiver `*container`; constructing a group as a
child of a group therefore does not compile in Go. -/
theorem svg_group_call_appends (s : SVG) :
    (s.applyCalls [Call.group]).contents = s.contents ++ [Node.group zeroShape []] := by
  simp [SVG.applyCalls, appendCalls, newChild]

end Gosvg
